import Mathlib

/-!
# Verification of the TAL_markety core logic

Shallow embedding of the core logic of the repository (file-backed cache,
Elasticsearch-style query builders, record formatters, paginated export
loop) together with theorems settling the specification claims.

Python dictionaries are modelled as insertion-ordered association lists,
JSON values as an inductive type, network and file-system effects as
explicit state passing, and caught exceptions as `Option`-valued results.
-/

/-- JSON values, modelling the Python dicts/lists/scalars the tool code
manipulates.  Numbers are modelled as integers (all numeric fields in the
queries and cache payloads are integers). -/
inductive JSON where
  | null : JSON
  | bool : Bool → JSON
  | num : Int → JSON
  | str : String → JSON
  | arr : List JSON → JSON
  | obj : List (String × JSON) → JSON

/-- Serialization of a Bool as Python json.dumps writes it. -/
def boolLit : Bool → String
  | true => "true"
  | false => "false"

mutual

/-- `json.dumps` with the default separators: objects as
`\x7b"k": v, ...\x7d`, arrays as `[v, ...]` (string escaping is not
modelled; the keys and strings involved contain no special characters). -/
def JSON.dumps : JSON → String
  | .null => "null"
  | .bool b => boolLit b
  | .num n => toString n
  | .str s => "\"" ++ s ++ "\""
  | .arr xs => "[" ++ dumpsArr xs ++ "]"
  | .obj fs => "\x7b" ++ dumpsObj fs ++ "\x7d"

/-- Serialize the elements of a JSON array, comma-separated. -/
def dumpsArr : List JSON → String
  | [] => ""
  | [x] => x.dumps
  | x :: y :: xs => x.dumps ++ ", " ++ dumpsArr (y :: xs)

/-- Serialize the fields of a JSON object, comma-separated. -/
def dumpsObj : List (String × JSON) → String
  | [] => ""
  | [(k, v)] => "\"" ++ k ++ "\": " ++ v.dumps
  | (k, v) :: f :: fs => "\"" ++ k ++ "\": " ++ v.dumps ++ ", " ++ dumpsObj (f :: fs)

end

/-- Lexicographic comparison of strings as lists of Unicode code points —
the order Python uses when `sort_keys=True` sorts dict keys. -/
def charListLe : List Char → List Char → Bool
  | [], _ => true
  | _ :: _, [] => false
  | c :: cs, d :: ds =>
    if c.toNat < d.toNat then true
    else if d.toNat < c.toNat then false
    else charListLe cs ds

theorem charListLe_total : ∀ x y, charListLe x y = true ∨ charListLe y x = true
  | [], _ => Or.inl rfl
  | _ :: _, [] => Or.inr rfl
  | c :: cs, d :: ds => by
    rcases Nat.lt_trichotomy c.toNat d.toNat with h | h | h
    · left; simp [charListLe, h]
    · rcases charListLe_total cs ds with ih | ih
      · left; simp [charListLe, h, ih]
      · right; simp [charListLe, h.symm, ih]
    · right; simp [charListLe, h]

theorem charListLe_trans : ∀ x y z, charListLe x y = true → charListLe y z = true →
    charListLe x z = true
  | [], _, _ => by intro _ _; rfl
  | _ :: _, [], _ => by intro h _; simp [charListLe] at h
  | _ :: _, _ :: _, [] => by intro _ h; simp [charListLe] at h
  | c :: cs, d :: ds, e :: es => by
    intro h1 h2
    simp only [charListLe] at h1 h2 ⊢
    split_ifs at h1 h2 ⊢ <;> first | rfl | omega |
      exact charListLe_trans cs ds es h1 h2

theorem char_eq_of_toNat_eq {a b : Char} (h : a.toNat = b.toNat) : a = b := by
  unfold Char.toNat at h
  exact Char.eq_of_val_eq (UInt32.toNat.inj h)

theorem charListLe_antisymm : ∀ x y, charListLe x y = true → charListLe y x = true →
    x = y
  | [], [] => by intro _ _; rfl
  | [], _ :: _ => by intro _ h; simp [charListLe] at h
  | _ :: _, [] => by intro h _; simp [charListLe] at h
  | c :: cs, d :: ds => by
    intro h1 h2
    simp only [charListLe] at h1 h2
    split_ifs at h1 h2 with hcd hdc
    · omega
    · have : c = d := char_eq_of_toNat_eq (by omega)
      rw [this, charListLe_antisymm cs ds h1 h2]

/-- Comparison of two strings via their code-point sequences. -/
def strLe (a b : String) : Prop := charListLe a.data b.data = true

instance : DecidableRel strLe :=
  fun a b => inferInstanceAs (Decidable (charListLe a.data b.data = true))

theorem strLe_antisymm {a b : String} (h1 : strLe a b) (h2 : strLe b a) : a = b := by
  have : a.data = b.data := charListLe_antisymm _ _ h1 h2
  cases a; cases b; simp_all

/-- Ordering of object fields by key, as `json.dumps(..., sort_keys=True)`
sorts them. -/
def keyLE (a b : String × JSON) : Prop := strLe a.1 b.1

instance : DecidableRel keyLE := fun a b => inferInstanceAs (Decidable (strLe a.1 b.1))

instance : IsTotal (String × JSON) keyLE := ⟨fun a b => charListLe_total a.1.data b.1.data⟩

instance : IsTrans (String × JSON) keyLE :=
  ⟨fun _ _ _ h1 h2 => charListLe_trans _ _ _ h1 h2⟩

mutual

/-- Recursively sort the fields of every object by key — the canonicalization
`sort_keys=True` applies before serialization. -/
def JSON.sortKeys : JSON → JSON
  | .null => .null
  | .bool b => .bool b
  | .num n => .num n
  | .str s => .str s
  | .arr xs => .arr (sortKeysArr xs)
  | .obj fs => .obj (List.insertionSort keyLE (sortKeysFields fs))

/-- Canonicalize each element of an array (array order is preserved). -/
def sortKeysArr : List JSON → List JSON
  | [] => []
  | x :: xs => x.sortKeys :: sortKeysArr xs

/-- Canonicalize each field value of an object (before the fields are
sorted by key). -/
def sortKeysFields : List (String × JSON) → List (String × JSON)
  | [] => []
  | (k, v) :: fs => (k, v.sortKeys) :: sortKeysFields fs

end

/-- Stand-in for `hashlib.md5(...).hexdigest()`: a deterministic digest of
the serialized parameter string.  The cache-key property under scrutiny
(order-independence) depends only on the digest being a pure function of
the canonical serialization, not on the md5 algorithm, which is library
code outside this repository. -/
def md5Hex (s : String) : String :=
  toString (s.data.foldl (fun h c => (h * 131 + c.toNat) % 1000000007) 5381)

/-- `Cache._get_cache_key` (pdl_tool.py lines 46-52):
`sorted_params = json.dumps(params, sort_keys=True)` followed by
`hashlib.md5(sorted_params.encode()).hexdigest()`.  `params` is the Python
dict modelled as an insertion-ordered association list. -/
def Cache.getCacheKey (params : List (String × JSON)) : String :=
  md5Hex (JSON.dumps (JSON.sortKeys (.obj params)))

/-- Content of one file in the cache directory: either a well-formed entry
(the object `json.dump` wrote: a `timestamp` in epoch seconds and the
cached `data`), or content whose read/JSON-parse/field access raises (all
such exceptions are caught by `Cache.get`). -/
inductive FileContent where
  | good (timestamp : Int) (data : JSON)
  | malformed

/-- The cache directory: an association list from cache key (file name
stem) to file content. -/
abbrev FileState := List (String × FileContent)

/-- Remove the file for `key` (`cache_path.unlink()`). -/
def eraseKey (key : String) (fs : FileState) : FileState :=
  fs.filter (fun kv => kv.1 != key)

/-- Write (or overwrite) the file for `key`. -/
def writeKey (key : String) (c : FileContent) (fs : FileState) : FileState :=
  (key, c) :: eraseKey key fs

/-- `Cache.get` (pdl_tool.py lines 58-83).  Returns the Python return value
(`None` modelled as `none`) together with the cache directory afterwards.
`now` and `ttl` are in seconds (`self.ttl` is `timedelta(hours=ttl_hours)`).
The `try`/`except` wrapper catches every read/deserialization error and
returns `None`, so the function has no exception outcome at all — hence
the total `Option` result type. -/
def Cache.get (now ttl : Int) (params : List (String × JSON)) (fs : FileState) :
    Option JSON × FileState :=
  let key := Cache.getCacheKey params
  match List.lookup key fs with
  | none => (none, fs)
  | some .malformed => (none, fs)
  | some (.good ts data) =>
    if now - ts > ttl then (none, eraseKey key fs)
    else (some data, fs)

/-- `Cache.set` (pdl_tool.py lines 85-102).  Writes
`\x7b timestamp: now, data \x7d` to the file of the key; `writeOk` models
whether the file write succeeds.  A failed write is caught and logged
(`except ... logger.warning`), leaving the directory unchanged — the
function never raises, hence the total `FileState` result. -/
def Cache.set (now : Int) (params : List (String × JSON)) (data : JSON)
    (writeOk : Bool) (fs : FileState) : FileState :=
  let key := Cache.getCacheKey params
  if writeOk then writeKey key (.good now data) fs else fs

/-- The simplified filter criteria accepted by `PDLTool.search_companies`
(pdl_tool.py line 553): `min_employees=None, max_employees=None,
funding_stages=None, page=1, size=10`.  `funding_stages = []` models both
Python `None` and `[]` (both falsy under `if funding_stages:`). -/
structure SearchCriteria where
  min_employees : Option Int
  max_employees : Option Int
  funding_stages : List String
  page : Int
  size : Int

/-- The `employee_range` dict built at pdl_tool.py lines 571-575: `gte` is
inserted exactly when `min_employees is not None`, then `lte` exactly when
`max_employees is not None`. -/
def employeeRange (minE maxE : Option Int) : List (String × JSON) :=
  (match minE with | some n => [("gte", .num n)] | none => []) ++
  (match maxE with | some n => [("lte", .num n)] | none => [])

/-- The hard-coded country disjunction appended at pdl_tool.py
lines 590-599: `\x7b"bool": \x7b"should": [term US, term Canada]\x7d\x7d`
(no other field is set on the `bool` node). -/
def PDLTool.locationCondition : JSON :=
  .obj [("bool", .obj [("should", .arr [
    .obj [("term", .obj [("location.country", .str "United States")])],
    .obj [("term", .obj [("location.country", .str "Canada")])]])])]

/-- `must_conditions` as accumulated by `PDLTool.search_companies`
(pdl_tool.py lines 567-599): optional employee range (guarded by
`is not None` on either bound), optional funding-stages terms (guarded by
truthiness of the list), then always the country disjunction. -/
def PDLTool.mustConditions (c : SearchCriteria) : List JSON :=
  (if c.min_employees.isSome || c.max_employees.isSome then
    [.obj [("range", .obj [("employee_count",
        .obj (employeeRange c.min_employees c.max_employees))])]]
   else []) ++
  (if c.funding_stages.isEmpty then [] else
    [.obj [("terms", .obj [("latest_funding_stage",
        .arr (c.funding_stages.map .str))])]]) ++
  [PDLTool.locationCondition]

/-- `search_payload` as built at pdl_tool.py lines 601-610: the must-list
wrapped in `bool`/`must`, plus `size` and `from = (page - 1) * size`. -/
def PDLTool.searchPayload (c : SearchCriteria) : JSON :=
  .obj [("query", .obj [("bool", .obj [("must", .arr (PDLTool.mustConditions c))])]),
        ("size", .num c.size),
        ("from", .num ((c.page - 1) * c.size))]

/-- The params dict accepted by `PDLApi.search_companies` (pdl_tool.py
lines 119-179).  `start` is the `from` key (`from` is a reserved word).
Absent keys are modelled as `none` / `[]`. -/
structure ApiParams where
  locations : List String
  min_employees : Option Int
  max_employees : Option Int
  funding_stages : List String
  size : Option Int
  start : Option Int

/-- Python truthiness of an optional integer: `params.get(k)` is truthy
exactly when the key is present with a nonzero value. -/
def truthy (o : Option Int) : Bool :=
  match o with
  | some n => n != 0
  | none => false

/-- The country disjunction appended by `PDLApi.search_companies`
(pdl_tool.py lines 157-165) — same shape as the PDLTool one. -/
def PDLApi.locationCondition : JSON :=
  .obj [("bool", .obj [("should", .arr [
    .obj [("term", .obj [("location.country", .str "United States")])],
    .obj [("term", .obj [("location.country", .str "Canada")])]])])]

/-- `must_conditions` as accumulated by `PDLApi.search_companies`
(pdl_tool.py lines 126-165).  Note every guard here is Python truthiness
(`if params.get(...)`), including the employee bounds. -/
def PDLApi.mustConditions (p : ApiParams) : List JSON :=
  (if p.locations.isEmpty then [] else
    [.obj [("terms", .obj [("location.country", .arr (p.locations.map .str))])]]) ++
  (if truthy p.min_employees || truthy p.max_employees then
    [.obj [("range", .obj [("employee_count", .obj (
        (if truthy p.min_employees then [("gte", .num (p.min_employees.getD 0))] else []) ++
        (if truthy p.max_employees then [("lte", .num (p.max_employees.getD 0))] else [])))])]]
   else []) ++
  (if p.funding_stages.isEmpty then [] else
    [.obj [("terms", .obj [("funding_stages", .arr (p.funding_stages.map .str))])]]) ++
  [PDLApi.locationCondition]

/-- `search_payload` as built at pdl_tool.py lines 167-179: the must-list
wrapped in `bool`/`must`, with `size = params.get("size", 100)` and
`from = params.get("from", 0)` taken directly from the params. -/
def PDLApi.searchPayload (p : ApiParams) : JSON :=
  .obj [("query", .obj [("bool", .obj [("must", .arr (PDLApi.mustConditions p))])]),
        ("size", .num (p.size.getD 100)),
        ("from", .num (p.start.getD 0))]

mutual

/-- Whether the string `k` occurs anywhere in a JSON value as an object
key (used to state that the built queries contain no
`minimum_should_match` field). -/
def JSON.mentionsKey (k : String) : JSON → Bool
  | .obj fs => mentionsKeyFields k fs
  | .arr xs => mentionsKeyArr k xs
  | _ => false

/-- Key search through the elements of an array. -/
def mentionsKeyArr (k : String) : List JSON → Bool
  | [] => false
  | x :: xs => x.mentionsKey k || mentionsKeyArr k xs

/-- Key search through the fields of an object. -/
def mentionsKeyFields (k : String) : List (String × JSON) → Bool
  | [] => false
  | (k2, v) :: fs => k == k2 || v.mentionsKey k || mentionsKeyFields k fs

end

/-- Round-half-even division: the integer nearest to `n / d`, ties going to
the even integer — the rounding that Python string formatting and
`round()` apply. -/
def roundHalfEvenDiv (n d : Nat) : Nat :=
  let q := n / d
  let r := n % d
  if 2 * r < d then q
  else if d < 2 * r then q + 1
  else if q % 2 = 0 then q else q + 1

/-- `f"\x7bamount / den:.1f\x7d"` for a natural amount: one decimal digit,
computed exactly (the Python float division is modelled as exact rational
arithmetic). -/
def fmt1 (amount den : Nat) : String :=
  let scaled := roundHalfEvenDiv (amount * 10) den
  toString (scaled / 10) ++ "." ++ toString (scaled % 10)

/-- Insert a thousands separator every three digits, on the reversed digit
list of a number. -/
def commaGroupAux : List Char → List Char
  | [] => []
  | [a] => [a]
  | [a, b] => [a, b]
  | [a, b, c] => [a, b, c]
  | a :: b :: c :: d :: rest => a :: b :: c :: ',' :: commaGroupAux (d :: rest)

/-- `f"\x7bn:,.0f\x7d"` for a natural number: decimal digits grouped in
threes by commas. -/
def commaGroup (n : Nat) : String :=
  String.mk ((commaGroupAux (toString n).data.reverse).reverse)

/-- `PDLTool._format_funding` (pdl_tool.py lines 539-551).  Funding amounts
are non-negative integers in the data; the float divisions are modelled
exactly.  `none` models a missing/null amount (falsy, like 0). -/
def PDLTool.formatFunding : Option Nat → String
  | none => "N/A"
  | some a =>
    if a = 0 then "N/A"
    else if 1000000000 ≤ a then "$" ++ fmt1 a 1000000000 ++ "B"
    else if 1000000 ≤ a then "$" ++ fmt1 a 1000000 ++ "M"
    else if 1000 ≤ a then "$" ++ fmt1 a 1000 ++ "K"
    else "$" ++ commaGroup a

/-- `PDLApi._format_funding` (pdl_tool.py lines 232-236): `"N/A"` when the
amount is falsy, else `f"$\x7bamount:,.0f\x7d"` — comma-grouped dollars
with no magnitude suffix. -/
def PDLApi.formatFunding : Option Nat → String
  | none => "N/A"
  | some a => if a = 0 then "N/A" else "$" ++ commaGroup a

/-- The location sub-dict of a raw API record, carrying the keys the two
`_format_location` implementations read.  `none` models a missing key; an
empty string is also falsy under the `if d.get(k):` guards. -/
structure RawLocation where
  city : Option String
  locality : Option String
  region : Option String
  country : Option String

/-- Comma-space join, `", ".join(parts)`. -/
def joinComma : List String → String
  | [] => ""
  | [x] => x
  | x :: y :: xs => x ++ ", " ++ joinComma (y :: xs)

/-- `PDLTool._format_location` (pdl_tool.py lines 523-537): collects parts
from the `city`, `region` and `country` keys (each guarded by truthiness);
`country` is appended only when it differs from `"United States"` or no
part was collected before it; the parts are joined with `", "`, and the
fallback for no parts is `"Location unknown"`. -/
def PDLTool.formatLocation (p : RawLocation) : String :=
  let parts : List String := []
  let parts := match p.city with
    | some s => if s.data.isEmpty then parts else parts ++ [s]
    | none => parts
  let parts := match p.region with
    | some s => if s.data.isEmpty then parts else parts ++ [s]
    | none => parts
  let parts := match p.country with
    | some s =>
      if s.data.isEmpty then parts
      else if (s != "United States") || parts.isEmpty then parts ++ [s]
      else parts
    | none => parts
  if parts.isEmpty then "Location unknown" else joinComma parts

/-- `PDLApi._format_location` (pdl_tool.py lines 217-230): parts from the
`locality`, `region` and `country` keys (truthiness-guarded), joined with
`", "`, else `"N/A"`.  (The initial `if not location: return "N/A"` for a
falsy dict coincides with the empty-parts fallback and needs no separate
case.) -/
def PDLApi.formatLocation (p : RawLocation) : String :=
  let parts : List String := []
  let parts := match p.locality with
    | some s => if s.data.isEmpty then parts else parts ++ [s]
    | none => parts
  let parts := match p.region with
    | some s => if s.data.isEmpty then parts else parts ++ [s]
    | none => parts
  let parts := match p.country with
    | some s => if s.data.isEmpty then parts else parts ++ [s]
    | none => parts
  if parts.isEmpty then "N/A" else joinComma parts

/-- A raw company record from the remote API, restricted to the keys the
cleaning loop reads (pdl_tool.py lines 627-640). -/
structure RawCompany where
  name : Option String
  website : Option String
  linkedin_url : Option String
  employee_count : Option Int
  location : RawLocation
  industry : Option String
  founded : Option Int
  type : Option String
  latest_funding_stage : Option String
  total_funding_raised : Option Nat

/-- `company.get(k, "N/A")` for a string field. -/
def orNA (o : Option String) : String := o.getD "N/A"

/-- `company.get(k, "N/A")` for a numeric field: the number when present,
else the string sentinel. -/
def numOrNA (o : Option Int) : JSON :=
  match o with
  | some n => .num n
  | none => .str "N/A"

/-- The normalized `cleaned_company` dict (pdl_tool.py lines 628-639). -/
structure CompanyRecord where
  name : String
  website : String
  linkedin_url : String
  total_employees : JSON
  location : String
  industry : String
  founded_year : JSON
  company_type : String
  funding_stage : String
  funding_total : String

/-- The cleaning projection applied per record by
`PDLTool.search_companies` (pdl_tool.py lines 626-640). -/
def PDLTool.cleanCompany (c : RawCompany) : CompanyRecord :=
  { name := orNA c.name
    website := orNA c.website
    linkedin_url := orNA c.linkedin_url
    total_employees := numOrNA c.employee_count
    location := PDLTool.formatLocation c.location
    industry := orNA c.industry
    founded_year := numOrNA c.founded
    company_type := orNA c.type
    funding_stage := orNA c.latest_funding_stage
    funding_total := PDLTool.formatFunding c.total_funding_raised }

/-- A decoded remote response: HTTP status, `total`, and the `data`
records. -/
structure NetResponse where
  status : Int
  total : Int
  data : List RawCompany

/-- The dict `PDLTool.search_companies` returns on success (pdl_tool.py
lines 642-647). -/
structure SearchResult where
  total : Int
  companies : List CompanyRecord
  page : Int
  size : Int

/-- One invocation of `PDLTool.search_companies` (pdl_tool.py lines
553-652) with its effects made explicit.  `net` is the remote API
(response as a function of the posted payload); the result triple is the
Python return value (`None` on a non-200 status), the cache directory
afterwards, and the number of network requests performed.  Faithful to the
source, the body performs exactly one `requests.post` and contains no
reference to the file-backed `Cache`: the `self.cache` attribute is a
plain in-memory dict used only by `get_company_details`, and no `Cache`
instance is consulted or written anywhere in this method. -/
def PDLTool.searchCompaniesRun (c : SearchCriteria) (net : JSON → NetResponse)
    (fs : FileState) : Option SearchResult × FileState × Nat :=
  let resp := net (PDLTool.searchPayload c)
  if resp.status != 200 then (none, fs, 1)
  else (some { total := resp.total
               companies := resp.data.map PDLTool.cleanCompany
               page := c.page
               size := c.size }, fs, 1)

/-- Two successive invocations of `PDLTool.search_companies` with the same
criteria, threading the cache state; returns the total number of network
requests the pair performs. -/
def PDLTool.searchTwiceNetworkCalls (c : SearchCriteria) (net : JSON → NetResponse)
    (fs : FileState) : Nat :=
  let r1 := PDLTool.searchCompaniesRun c net fs
  let r2 := PDLTool.searchCompaniesRun c net r1.2.1
  r1.2.2 + r2.2.2

/-- Round-half-even to an integer on exact rationals — the Python `round` builtin
(the binary-float representation is modelled as exact). -/
def rheQ (q : ℚ) : ℤ :=
  let f := ⌊q⌋
  if q - f < 1 / 2 then f
  else if 1 / 2 < q - f then f + 1
  else if f % 2 = 0 then f else f + 1

/-- `round(x, 1)`. -/
def round1 (q : ℚ) : ℚ := (rheQ (q * 10) : ℚ) / 10

/-- The percentage computation of `PDLTool.get_engineering_team_info`
(pdl_tool.py lines 489-514): `engineering_percentage = (engineering_count
/ total_employees * 100) if total_employees > 0 else 0`, and the returned
dict carries `round(engineering_percentage, 1)`. -/
def engineeringPercentage (engineering_count total_employees : Nat) : ℚ :=
  let pct : ℚ :=
    if 0 < total_employees then
      (engineering_count : ℚ) / (total_employees : ℚ) * 100
    else 0
  round1 pct

/-- Terminal state of the export pagination loop (app.py lines 219-261),
named after the `export_status` strings the code writes:
`done` = "Completed - All results retrieved",
`doneEmpty` = "Completed - No more results",
`error p` = "Error on page p".  `fuelExhausted` is a model artifact: the
supplied list of fetch outcomes ran out while the loop would have kept
going. -/
inductive ExportStatus where
  | done
  | doneEmpty
  | error (page : Int)
  | fuelExhausted
deriving DecidableEq, Repr

/-- The loop state when `export_companies` leaves its `while True` loop:
final status, `all_companies`, `app.config["last_successful_page"]`, and
the number of `search_companies` calls made. -/
structure ExportResult (α : Type) where
  status : ExportStatus
  rows : List α
  lastSuccessfulPage : Int
  fetches : Nat
deriving DecidableEq, Repr

/-- The `while True` pagination loop of `export_companies` (app.py lines
219-261).  Each element of the outcome list is the result of one
`pdl_tool.search_companies` call: `.ok rows` for a successful fetch (the
`companies` list of the page) and `.error ()` for a call that raised (including
the attribute error raised by `results.get` when `search_companies`
returns `None`).  `per_page` is hard-coded to 100 (line 215); the 0.5 s
inter-page sleep has no bearing on the loop state and is not modelled. -/
def exportLoop {α : Type} (page : Int) (acc : List α) (lsp : Int) (fetches : Nat) :
    List (Except Unit (List α)) → ExportResult α
  | [] => ⟨.fuelExhausted, acc, lsp, fetches⟩
  | .error _ :: _ => ⟨.error page, acc, lsp, fetches + 1⟩
  | .ok companies :: rest =>
    if companies.isEmpty then ⟨.doneEmpty, acc, page - 1, fetches + 1⟩
    else if companies.length < 100 then ⟨.done, acc ++ companies, page, fetches + 1⟩
    else exportLoop (page + 1) (acc ++ companies) page (fetches + 1) rest

/-- `export_companies` from its initialization (`all_companies = []`,
`page = start_page`, `app.config["last_successful_page"] = 0`, app.py
lines 204-218) through loop exit. -/
def exportCompanies {α : Type} (startPage : Int)
    (outcomes : List (Except Unit (List α))) : ExportResult α :=
  exportLoop startPage [] 0 0 outcomes

/-- The search payload as the amended claim C3 describes it: an optional
employee-count range clause, then an optional funding-stages terms clause,
then — always last — the bool/should country disjunction over United
States and Canada carrying no minimum_should_match field; the must list is
wrapped in bool/must and paired with `size` and `from = (page - 1) * size`.
A pure function of the criteria, so identical criteria give identical
payloads. -/
def claimedToolPayload (c : SearchCriteria) : JSON :=
  let mustList :=
    (if c.min_employees = none ∧ c.max_employees = none then []
     else [JSON.obj [("range", .obj [("employee_count",
         .obj (employeeRange c.min_employees c.max_employees))])]]) ++
    (if c.funding_stages = [] then []
     else [JSON.obj [("terms", .obj [("latest_funding_stage",
         .arr (c.funding_stages.map .str))])]]) ++
    [JSON.obj [("bool", .obj [("should", .arr [
       .obj [("term", .obj [("location.country", .str "United States")])],
       .obj [("term", .obj [("location.country", .str "Canada")])]])])]]
  .obj [("query", .obj [("bool", .obj [("must", .arr mustList)])]),
        ("size", .num c.size),
        ("from", .num ((c.page - 1) * c.size))]

/-- Shape test for an Elasticsearch `range` clause, used to state which
clauses of a must list are range clauses. -/
def isRangeClause : JSON → Bool
  | .obj (("range", _) :: _) => true
  | _ => false

/-- The location string as the amended claim C9 describes the PDLTool
formatter: the present (truthy) `city`, `region`, `country` sub-fields in
that order, except that `"United States"` is dropped when a city or region
part precedes it, joined with `", "`; `"Location unknown"` when nothing
remains. -/
def claimedLocationFormat (p : RawLocation) : String :=
  let cityPart : List String := match p.city with
    | some s => if s.data.isEmpty then [] else [s]
    | none => []
  let regionPart : List String := match p.region with
    | some s => if s.data.isEmpty then [] else [s]
    | none => []
  let countryPart : List String := match p.country with
    | some s =>
      if s.data.isEmpty then []
      else if s == "United States" && !(cityPart ++ regionPart).isEmpty then []
      else [s]
    | none => []
  let parts := cityPart ++ regionPart ++ countryPart
  if parts.isEmpty then "Location unknown" else joinComma parts

/-- The location string exactly as claim C9 describes it (this is what
`PDLApi._format_location` computes): the present `locality`, `region`,
`country` sub-fields in that order joined with `", "`, else `"N/A"`. -/
def claimedApiLocationFormat (p : RawLocation) : String :=
  let localityPart : List String := match p.locality with
    | some s => if s.data.isEmpty then [] else [s]
    | none => []
  let regionPart : List String := match p.region with
    | some s => if s.data.isEmpty then [] else [s]
    | none => []
  let countryPart : List String := match p.country with
    | some s => if s.data.isEmpty then [] else [s]
    | none => []
  let parts := localityPart ++ regionPart ++ countryPart
  if parts.isEmpty then "N/A" else joinComma parts

/-! ## Helper lemmas -/

theorem sortKeysFields_eq_map (l : List (String × JSON)) :
    sortKeysFields l = l.map (fun kv => (kv.1, JSON.sortKeys kv.2)) := by
  induction l with
  | nil => rfl
  | cons kv rest ih => cases kv; simp [sortKeysFields, ih]

theorem sortKeysFields_map_fst (l : List (String × JSON)) :
    (sortKeysFields l).map Prod.fst = l.map Prod.fst := by
  rw [sortKeysFields_eq_map, List.map_map]
  rfl

/-- Strict version of the key order, used to see that a key-sorted list
with pairwise-distinct keys is unique. -/
def keyLT (a b : String × JSON) : Prop := keyLE a b ∧ a.1 ≠ b.1

instance : IsAntisymm (String × JSON) keyLT :=
  ⟨fun _ _ h1 h2 => absurd (strLe_antisymm h1.1 h2.1) h1.2⟩

theorem insertionSort_eq_of_perm_of_nodup_keys (l1 l2 : List (String × JSON))
    (hp : l1.Perm l2) (hnd : (l1.map Prod.fst).Nodup) :
    List.insertionSort keyLE l1 = List.insertionSort keyLE l2 := by
  have hs1 := List.sorted_insertionSort keyLE l1
  have hs2 := List.sorted_insertionSort keyLE l2
  have hperm : (List.insertionSort keyLE l1).Perm (List.insertionSort keyLE l2) :=
    (List.perm_insertionSort keyLE l1).trans (hp.trans (List.perm_insertionSort keyLE l2).symm)
  have hsymm : Symmetric (fun a b : String × JSON => a.1 ≠ b.1) :=
    fun _ _ h => h.symm
  have hne : l1.Pairwise (fun a b => a.1 ≠ b.1) := List.pairwise_map.mp hnd
  have hne1 : (List.insertionSort keyLE l1).Pairwise (fun a b => a.1 ≠ b.1) :=
    ((List.perm_insertionSort keyLE l1).pairwise_iff (fun hab => hsymm hab)).mpr hne
  have hne2 : (List.insertionSort keyLE l2).Pairwise (fun a b => a.1 ≠ b.1) :=
    (hperm.pairwise_iff (fun hab => hsymm hab)).mp hne1
  have hlt1 : (List.insertionSort keyLE l1).Sorted keyLT := hs1.and hne1
  have hlt2 : (List.insertionSort keyLE l2).Sorted keyLT := hs2.and hne2
  exact List.eq_of_perm_of_sorted hperm hlt1 hlt2

theorem mentionsKeyArr_map_str (k : String) (l : List String) :
    mentionsKeyArr k (l.map .str) = false := by
  induction l with
  | nil => rfl
  | cons s rest ih => simp only [List.map_cons, mentionsKeyArr, JSON.mentionsKey, ih,
      Bool.false_or]

theorem isEmpty_false_of_len {α : Type} {l : List α} {n : Nat} (h : l.length = n)
    (hn : n ≠ 0) : l.isEmpty = false := by
  cases l
  · simp at h; omega
  · rfl

theorem exportLoop_error_aux {α : Type} (rest : List (Except Unit (List α)))
    (pages : List (List α)) :
    ∀ (page lsp : Int) (acc : List α) (fetches : Nat),
      (∀ p ∈ pages, 100 ≤ p.length) →
      exportLoop page acc lsp fetches (pages.map .ok ++ .error () :: rest) =
        ⟨.error (page + pages.length), acc ++ pages.flatten,
          if pages.isEmpty then lsp else page + pages.length - 1,
          fetches + pages.length + 1⟩ := by
  induction pages with
  | nil => intro page lsp acc fetches _; simp [exportLoop]
  | cons p ps ih =>
    intro page lsp acc fetches hfull
    have hp : 100 ≤ p.length := hfull p (by simp)
    have hps : ∀ q ∈ ps, 100 ≤ q.length := fun q hq => hfull q (by simp [hq])
    have hne : p.isEmpty = false := by cases p <;> simp_all
    have hlt : ¬ (p.length < 100) := by omega
    simp only [List.map_cons, List.cons_append, exportLoop, hne, Bool.false_eq_true,
      if_false, hlt, List.append_eq]
    rw [ih (page + 1) page (acc ++ p) (fetches + 1) hps]
    cases ps with
    | nil =>
      simp only [List.length_nil, List.length_cons, List.flatten_nil, List.flatten_cons,
        List.append_nil, List.isEmpty_nil, List.isEmpty_cons, ExportResult.mk.injEq,
        ExportStatus.error.injEq, if_true, List.append_assoc]
      and_intros <;> first | trivial | (push_cast; ring)
    | cons q qs =>
      simp only [List.length_cons, List.flatten_cons, List.isEmpty_cons,
        ExportResult.mk.injEq, ExportStatus.error.injEq, List.append_assoc,
        Bool.and_eq_true, if_false, Bool.false_eq_true]
      and_intros <;> first | trivial | (push_cast; ring)

/-! ## Claim theorems -/

/-- C1 amended: `PDLTool.search_companies` never consults the file-backed
`Cache`.  For every criteria, remote behavior and cache-directory state,
one invocation performs exactly one network request and leaves the cache
directory unchanged (nothing is looked up in it and nothing is stored in
it), so two identical invocations — within any TTL window — perform two
network requests instead of the claimed one. -/
theorem C1_search_companies_ignores_cache (c : SearchCriteria)
    (net : JSON → NetResponse) (fs : FileState) :
    (PDLTool.searchCompaniesRun c net fs).2.1 = fs ∧
    (PDLTool.searchCompaniesRun c net fs).2.2 = 1 ∧
    PDLTool.searchTwiceNetworkCalls c net fs = 2 := by
  unfold PDLTool.searchTwiceNetworkCalls PDLTool.searchCompaniesRun
  cases h : (net (PDLTool.searchPayload c)).status != 200 <;> simp [h]

/-- Counterexample to C1 as stated: even when the cache directory already
holds a fresh entry keyed (via `Cache._get_cache_key`) by the
`\x7bquery, page, size\x7d` parameter object of this exact invocation,
`PDLTool.search_companies` performs a network request (1, not the claimed
0), returns the freshly fetched result rather than the cached payload,
and a second identical invocation performs a second network call (2 total,
not the claimed 1). -/
theorem C1_counterexample :
    (PDLTool.searchCompaniesRun ⟨none, none, [], 1, 10⟩ (fun _ => ⟨200, 7, []⟩)
        [(Cache.getCacheKey
            [("query", .obj [("bool", .obj [("must", .arr [PDLTool.locationCondition])])]),
             ("page", .num 1), ("size", .num 10)],
          .good 0 (.str "cachedPayload"))]).2.2 = 1 ∧ (1 : Nat) ≠ 0 ∧
    (PDLTool.searchCompaniesRun ⟨none, none, [], 1, 10⟩ (fun _ => ⟨200, 7, []⟩)
        [(Cache.getCacheKey
            [("query", .obj [("bool", .obj [("must", .arr [PDLTool.locationCondition])])]),
             ("page", .num 1), ("size", .num 10)],
          .good 0 (.str "cachedPayload"))]).1 = some ⟨7, [], 1, 10⟩ ∧
    PDLTool.searchTwiceNetworkCalls ⟨none, none, [], 1, 10⟩ (fun _ => ⟨200, 7, []⟩)
        [(Cache.getCacheKey
            [("query", .obj [("bool", .obj [("must", .arr [PDLTool.locationCondition])])]),
             ("page", .num 1), ("size", .num 10)],
          .good 0 (.str "cachedPayload"))] = 2 ∧ (2 : Nat) ≠ 1 :=
  ⟨rfl, by decide, rfl, rfl, by decide⟩

/-- C2: for every two parameter dictionaries containing the same key/value
pairs in any insertion order (keys unique, as in a Python dict),
`Cache._get_cache_key` produces the same key string — the key depends only
on the set of key/value pairs, because the serialization sorts keys before
hashing. -/
theorem C2_cache_key_order_independent (l1 l2 : List (String × JSON))
    (hperm : l1.Perm l2) (hkeys : (l1.map Prod.fst).Nodup) :
    Cache.getCacheKey l1 = Cache.getCacheKey l2 := by
  unfold Cache.getCacheKey
  have h1 : JSON.sortKeys (.obj l1) = .obj (List.insertionSort keyLE (sortKeysFields l1)) := rfl
  have h2 : JSON.sortKeys (.obj l2) = .obj (List.insertionSort keyLE (sortKeysFields l2)) := rfl
  rw [h1, h2]
  have hp : (sortKeysFields l1).Perm (sortKeysFields l2) := by
    rw [sortKeysFields_eq_map, sortKeysFields_eq_map]
    exact hperm.map _
  have hnd : ((sortKeysFields l1).map Prod.fst).Nodup := by
    rw [sortKeysFields_map_fst]; exact hkeys
  rw [insertionSort_eq_of_perm_of_nodup_keys _ _ hp hnd]

/-- Witness for C2: two concrete two-entry dicts with the same pairs in
opposite insertion order hash to the same cache key. -/
theorem C2_cache_key_order_independent_witness :
    Cache.getCacheKey [("b", .num 1), ("a", .num 2)] =
      Cache.getCacheKey [("a", .num 2), ("b", .num 1)] :=
  C2_cache_key_order_independent _ _
    (List.Perm.swap (("a", JSON.num 2) : String × JSON) ("b", JSON.num 1) [])
    (by decide)

/-- C3 amended: the built search payload wraps the must-clause list in a
bool/must conjunction, always appends (last) the bool/should disjunction
over the country terms United States and Canada — without an explicit
minimum_should_match field, which occurs nowhere in the payload — and sets
the pagination fields `size` and `from = (page - 1) * size`; the clause
order is fixed (the payload is exactly `claimedToolPayload`, a pure
function of the criteria, so identical criteria produce identical query
objects). -/
theorem C3_query_builder_shape (c : SearchCriteria) :
    PDLTool.searchPayload c = claimedToolPayload c ∧
    (PDLTool.mustConditions c).getLast? = some PDLTool.locationCondition ∧
    JSON.mentionsKey "minimum_should_match" (PDLTool.searchPayload c) = false := by
  rcases c with ⟨mn, mx, fsg, page, size⟩
  refine ⟨?_, ?_, ?_⟩
  · cases mn <;> cases mx <;> cases fsg <;>
      simp [PDLTool.searchPayload, claimedToolPayload, PDLTool.mustConditions,
        PDLTool.locationCondition, employeeRange]
  · simp [PDLTool.mustConditions, List.append_assoc]
  · cases mn <;> cases mx <;> cases fsg <;>
      simp [PDLTool.searchPayload, PDLTool.mustConditions, PDLTool.locationCondition,
        employeeRange, JSON.mentionsKey, mentionsKeyFields, mentionsKeyArr,
        mentionsKeyArr_map_str]

/-- Counterexample to C3 as stated: the claim asserts the appended
disjunction sets `minimum_should_match: 1`, but the key
`minimum_should_match` occurs nowhere in the payload either builder
constructs (shown at the default criteria / empty params); the last must
clause is the bare bool/should disjunction. -/
theorem C3_counterexample :
    JSON.mentionsKey "minimum_should_match"
      (PDLTool.searchPayload ⟨none, none, [], 1, 10⟩) = false ∧
    (PDLTool.mustConditions ⟨none, none, [], 1, 10⟩).getLast? =
      some PDLTool.locationCondition ∧
    JSON.mentionsKey "minimum_should_match"
      (PDLApi.searchPayload ⟨[], none, none, [], none, none⟩) = false :=
  ⟨rfl, rfl, rfl⟩

/-- C4 amended: in `PDLTool.search_companies` the claim holds as stated —
the must list contains a range clause on employee_count exactly when
`min_employees` or `max_employees` is present (including the value 0,
since presence is tested with `is not None`), with `gte`/`lte` set exactly
for the bounds present and no range clause at all otherwise.  In
`PDLApi.search_companies`, however, presence is Python truthiness, so a
bound of 0 (or an absent bound) is treated as missing: the range clause
appears exactly when some bound is a nonzero integer, and `gte`/`lte` are
set only for nonzero bounds. -/
theorem C4_range_clause_presence (c : SearchCriteria) (p : ApiParams) :
    ((PDLTool.mustConditions c).filter isRangeClause =
      if c.min_employees.isSome || c.max_employees.isSome then
        [JSON.obj [("range", .obj [("employee_count",
            .obj (employeeRange c.min_employees c.max_employees))])]]
      else []) ∧
    ((PDLApi.mustConditions p).filter isRangeClause =
      if truthy p.min_employees || truthy p.max_employees then
        [JSON.obj [("range", .obj [("employee_count", .obj (
            (if truthy p.min_employees then [("gte", .num (p.min_employees.getD 0))]
             else []) ++
            (if truthy p.max_employees then [("lte", .num (p.max_employees.getD 0))]
             else [])))])]]
      else []) := by
  constructor
  · rcases c with ⟨mn, mx, fsg, page, size⟩
    cases mn <;> cases mx <;> cases fsg <;> rfl
  · rcases p with ⟨locs, mn, mx, fsg, sz, st⟩
    cases hm : truthy mn <;> cases hx : truthy mx <;> cases locs <;> cases fsg <;>
      simp [PDLApi.mustConditions, PDLApi.locationCondition, hm, hx, isRangeClause,
        List.filter]

/-- Witness for C4 (and contrast for its counterexample): with
`min_employees = 0` the PDLTool builder does emit `range/gte: 0`. -/
theorem C4_range_clause_presence_witness :
    (PDLTool.mustConditions ⟨some 0, none, [], 1, 10⟩).filter isRangeClause =
      [JSON.obj [("range", .obj [("employee_count", .obj [("gte", .num 0)])])]] ∧
    (PDLApi.mustConditions ⟨[], some 5, none, [], none, none⟩).filter isRangeClause =
      [JSON.obj [("range", .obj [("employee_count", .obj [("gte", .num 5)])])]] :=
  ⟨(C4_range_clause_presence ⟨some 0, none, [], 1, 10⟩
      ⟨[], some 5, none, [], none, none⟩).1,
   (C4_range_clause_presence ⟨some 0, none, [], 1, 10⟩
      ⟨[], some 5, none, [], none, none⟩).2⟩

/-- Counterexample to C4 as stated: the claim says a range clause is
included whenever a bound is present "including the value 0", citing both
builders — but `PDLApi.search_companies` with `min_employees = 0` (present,
value 0) adds no range clause at all. -/
theorem C4_counterexample :
    (PDLApi.mustConditions ⟨[], some 0, none, [], none, none⟩).filter isRangeClause
      = [] := rfl

/-- C5: `Cache.get` returns the stored payload when a fresh entry exists;
when `now - created_at` exceeds the TTL it deletes the entry file and
returns absent; a missing or unreadable/undeserializable entry yields
absent with the directory untouched (the exception is caught, never
raised); and `Cache.set` on a failed write leaves the directory unchanged
(the error is logged and swallowed — both functions are total, with no
exception outcome in their result types). -/
theorem C5_cache_get_set_contract (now ttl ts : Int) (params : List (String × JSON))
    (fs : FileState) (payload newData : JSON) :
    (List.lookup (Cache.getCacheKey params) fs = some (.good ts payload) →
      (now - ts ≤ ttl → Cache.get now ttl params fs = (some payload, fs)) ∧
      (now - ts > ttl → Cache.get now ttl params fs =
        (none, eraseKey (Cache.getCacheKey params) fs))) ∧
    (List.lookup (Cache.getCacheKey params) fs = some .malformed →
      Cache.get now ttl params fs = (none, fs)) ∧
    (List.lookup (Cache.getCacheKey params) fs = none →
      Cache.get now ttl params fs = (none, fs)) ∧
    Cache.set now params newData false fs = fs := by
  refine ⟨fun h => ⟨fun hle => ?_, fun hgt => ?_⟩, fun h => ?_, fun h => ?_, rfl⟩ <;>
    simp [Cache.get, h]
  · omega
  · omega

/-- Witness for C5: a concrete fresh hit, a concrete expired entry (which
gets deleted), a concrete malformed entry, a concrete miss, and a failed
write. -/
theorem C5_cache_get_set_contract_witness :
    Cache.get 100 3600 [("page", .num 1)]
        [(Cache.getCacheKey [("page", .num 1)], .good 50 (.str "x"))] =
      (some (.str "x"), [(Cache.getCacheKey [("page", .num 1)], .good 50 (.str "x"))]) ∧
    Cache.get 99999 3600 [("page", .num 1)]
        [(Cache.getCacheKey [("page", .num 1)], .good 50 (.str "x"))] = (none, []) ∧
    Cache.get 100 3600 [("page", .num 1)]
        [(Cache.getCacheKey [("page", .num 1)], .malformed)] =
      (none, [(Cache.getCacheKey [("page", .num 1)], .malformed)]) ∧
    Cache.get 100 3600 [("page", .num 1)] [] = (none, []) ∧
    Cache.set 100 [("page", .num 1)] (.str "y") false [] = [] := by
  refine ⟨((C5_cache_get_set_contract 100 3600 50 [("page", .num 1)]
      [(Cache.getCacheKey [("page", .num 1)], .good 50 (.str "x"))]
      (.str "x") (.str "y")).1 rfl).1 (by norm_num), ?_,
    (C5_cache_get_set_contract 100 3600 50 [("page", .num 1)]
      [(Cache.getCacheKey [("page", .num 1)], .malformed)]
      (.str "x") (.str "y")).2.1 rfl,
    (C5_cache_get_set_contract 100 3600 50 [("page", .num 1)] []
      (.str "x") (.str "y")).2.2.1 rfl,
    (C5_cache_get_set_contract 100 3600 50 [("page", .num 1)] []
      (.str "x") (.str "y")).2.2.2⟩
  have h := ((C5_cache_get_set_contract 99999 3600 50 [("page", .num 1)]
      [(Cache.getCacheKey [("page", .num 1)], .good 50 (.str "x"))] (.str "x")
      (.str "y")).1 rfl).2 (by norm_num)
  rw [h]
  rfl

/-- C6: an export run whose successive page fetches return 100, 100 and 37
records terminates after exactly 3 fetches in the DONE state ("Completed -
All results retrieved"): the short third page is included, the 237 rows
are accumulated in order, and `last_successful_page = 3`. -/
theorem C6_export_three_pages {α : Type} (r1 r2 r3 : List α)
    (h1 : r1.length = 100) (h2 : r2.length = 100) (h3 : r3.length = 37) :
    exportCompanies 1 [.ok r1, .ok r2, .ok r3] =
      ⟨.done, r1 ++ r2 ++ r3, 3, 3⟩ ∧ (r1 ++ r2 ++ r3).length = 237 := by
  constructor
  · simp [exportCompanies, exportLoop, h1, h2, h3,
      isEmpty_false_of_len h1 (by norm_num), isEmpty_false_of_len h2 (by norm_num),
      isEmpty_false_of_len h3 (by norm_num), List.append_assoc]
  · simp [h1, h2, h3]

/-- Witness for C6: pages of 100, 100 and 37 concrete rows. -/
theorem C6_export_three_pages_witness :
    exportCompanies 1 [.ok (List.range 100), .ok (List.range 100),
        .ok (List.range 37)] =
      ⟨.done, List.range 100 ++ List.range 100 ++ List.range 37, 3, 3⟩ ∧
    (List.range 100 ++ List.range 100 ++ List.range 37).length = 237 :=
  C6_export_three_pages (List.range 100) (List.range 100) (List.range 37)
    (by simp) (by simp) (by simp)

/-- C7: when the fetch of some page fails after earlier full pages
succeeded, the export loop terminates in the error state recording the
failing page number (`start + number of successful pages`), and every row
accumulated from the earlier pages is preserved in order and returned
alongside the failure indicator — never discarded. -/
theorem C7_export_error_preserves_rows {α : Type} (startPage : Int)
    (pages : List (List α)) (rest : List (Except Unit (List α)))
    (hfull : ∀ p ∈ pages, 100 ≤ p.length) :
    exportCompanies startPage (pages.map .ok ++ .error () :: rest) =
      ⟨.error (startPage + pages.length), pages.flatten,
        if pages.isEmpty then 0 else startPage + pages.length - 1,
        pages.length + 1⟩ := by
  have h := exportLoop_error_aux rest pages startPage 0 [] 0 hfull
  simpa [exportCompanies] using h

/-- Witness for C7 (the scenario given in the spec): page 1 succeeds with 100 rows,
page 2 raises — the run ends as ERROR(page = 2) with the 100 rows
preserved. -/
theorem C7_export_error_preserves_rows_witness :
    exportCompanies 1 [.ok (List.range 100), .error ()] =
      ⟨.error 2, List.range 100, 1, 2⟩ := by
  have h := C7_export_error_preserves_rows 1 [List.range 100] [] (by simp)
  simpa using h

/-- C8 amended: `PDLTool._format_funding` behaves exactly as the claim
states — currency with magnitude suffixes at thresholds 1e9 (B), 1e6 (M),
1e3 (K) with one decimal place, plain dollars below 1e3, and `"N/A"` for
zero or absent amounts (500 → $500, 2500 → $2.5K, 3400000 → $3.4M,
1200000000 → $1.2B).  `PDLApi._format_funding` — the other `funding_total`
formatter the claim cites — instead renders comma-grouped dollars with no
magnitude suffix for every nonzero amount. -/
theorem C8_funding_format :
    PDLTool.formatFunding (some 500) = "$500" ∧
    PDLTool.formatFunding (some 2500) = "$2.5K" ∧
    PDLTool.formatFunding (some 3400000) = "$3.4M" ∧
    PDLTool.formatFunding (some 1200000000) = "$1.2B" ∧
    PDLTool.formatFunding (some 0) = "N/A" ∧
    PDLTool.formatFunding none = "N/A" ∧
    (∀ a : Nat, 1000000000 ≤ a →
      PDLTool.formatFunding (some a) = "$" ++ fmt1 a 1000000000 ++ "B") ∧
    (∀ a : Nat, 1000000 ≤ a → a < 1000000000 →
      PDLTool.formatFunding (some a) = "$" ++ fmt1 a 1000000 ++ "M") ∧
    (∀ a : Nat, 1000 ≤ a → a < 1000000 →
      PDLTool.formatFunding (some a) = "$" ++ fmt1 a 1000 ++ "K") ∧
    (∀ a : Nat, 0 < a → a < 1000 →
      PDLTool.formatFunding (some a) = "$" ++ commaGroup a) := by
  refine ⟨rfl, rfl, rfl, rfl, rfl, rfl, ?_, ?_, ?_, ?_⟩
  · intro a h
    simp only [PDLTool.formatFunding]
    rw [if_neg (by omega), if_pos h]
  · intro a h1 h2
    simp only [PDLTool.formatFunding]
    rw [if_neg (by omega), if_neg (by omega), if_pos h1]
  · intro a h1 h2
    simp only [PDLTool.formatFunding]
    rw [if_neg (by omega), if_neg (by omega), if_neg (by omega), if_pos h1]
  · intro a h1 h2
    simp only [PDLTool.formatFunding]
    rw [if_neg (by omega), if_neg (by omega), if_neg (by omega), if_neg (by omega)]

/-- Witness for C8: the threshold clauses at concrete amounts. -/
theorem C8_funding_format_witness :
    PDLTool.formatFunding (some 1500000000) = "$1.5B" ∧
    PDLTool.formatFunding (some 250000) = "$250.0K" ∧
    PDLTool.formatFunding (some 7500000) = "$7.5M" ∧
    PDLTool.formatFunding (some 999) = "$999" :=
  ⟨C8_funding_format.2.2.2.2.2.2.1 1500000000 (by norm_num),
   C8_funding_format.2.2.2.2.2.2.2.2.1 250000 (by norm_num) (by norm_num),
   C8_funding_format.2.2.2.2.2.2.2.1 7500000 (by norm_num) (by norm_num),
   C8_funding_format.2.2.2.2.2.2.2.2.2 999 (by norm_num) (by norm_num)⟩

/-- Counterexample to C8 as stated: `PDLApi._format_funding`, one of the
two `funding_total` formatters the claim covers, maps 2500 to `"$2,500"`,
not to the claimed `"$2.5K"`. -/
theorem C8_counterexample :
    PDLApi.formatFunding (some 2500) = "$2,500" ∧ ("$2,500" : String) ≠ "$2.5K" :=
  ⟨rfl, by decide⟩

/-- C9 amended: the `location` field of the normalized CompanyRecord is
produced by `PDLTool._format_location`, which joins the present `city`,
`region`, `country` sub-fields (not `locality`), omits `"United States"`
when a city or region part precedes it, and falls back to
`"Location unknown"` — while the claimed join of `locality`, `region`,
`country` with the `"N/A"` fallback is what the unused companion
`PDLApi._format_location` computes. -/
theorem C9_location_format (raw : RawCompany) (p : RawLocation) :
    (PDLTool.cleanCompany raw).location = PDLTool.formatLocation raw.location ∧
    PDLTool.formatLocation p = claimedLocationFormat p ∧
    PDLApi.formatLocation p = claimedApiLocationFormat p := by
  refine ⟨rfl, ?_, ?_⟩
  · rcases p with ⟨city, loc, reg, ctry⟩
    cases city <;> cases reg <;> cases ctry <;>
      simp [PDLTool.formatLocation, claimedLocationFormat] <;>
      split_ifs <;> simp_all <;> tauto
  · rcases p with ⟨city, loc, reg, ctry⟩
    cases loc <;> cases reg <;> cases ctry <;>
      simp [PDLApi.formatLocation, claimedApiLocationFormat] <;>
      split_ifs <;> simp_all

/-- Counterexample to C9 as stated: for a raw record whose location is
`\x7blocality: Austin, region: Texas, country: United States\x7d`, the
normalized record has location `"Texas"` (the `locality` key is never
read — the formatter reads `city` — and `"United States"` is dropped),
not the claimed `"Austin, Texas, United States"`; and with no sub-fields
present the field is `"Location unknown"`, not the claimed `"N/A"`. -/
theorem C9_counterexample :
    (PDLTool.cleanCompany ⟨none, none, none, none,
        ⟨none, some "Austin", some "Texas", some "United States"⟩,
        none, none, none, none, none⟩).location = "Texas" ∧
    ("Texas" : String) ≠ "Austin, Texas, United States" ∧
    PDLTool.formatLocation ⟨none, none, none, none⟩ = "Location unknown" ∧
    ("Location unknown" : String) ≠ "N/A" :=
  ⟨rfl, by decide, rfl, by decide⟩

/-- C10: `get_engineering_team_info` computes `engineering_percentage` as
`engineering_count / total_employees * 100` rounded to one decimal, and
the guarded conditional returns 0 whenever `total_employees = 0` — the
division is never evaluated with a zero denominator (in the embedding: the
zero branch is taken without forming the quotient). -/
theorem C10_engineering_percentage_guard (ec te : Nat) :
    (te = 0 → engineeringPercentage ec te = 0) ∧
    (0 < te → engineeringPercentage ec te =
      round1 ((ec : ℚ) / (te : ℚ) * 100)) := by
  constructor
  · intro h
    subst h
    norm_num [engineeringPercentage, round1, rheQ]
  · intro h
    simp [engineeringPercentage, h]

/-- Witness for C10: a zero total yields 0; 1 engineer of 8 employees
yields 12.5. -/
theorem C10_engineering_percentage_guard_witness :
    engineeringPercentage 7 0 = 0 ∧ engineeringPercentage 1 8 = 25 / 2 := by
  refine ⟨(C10_engineering_percentage_guard 7 0).1 rfl, ?_⟩
  have h := (C10_engineering_percentage_guard 1 8).2 (by norm_num)
  rw [h]
  norm_num [round1, rheQ]
